import Mathlib

/-!
Shallow embedding of the keyword-scoring document classifier of this
repository, taken from `classify_document_server/app.py` (HuggingFace
Inference API variant, function `classify_with_hf_api`) and
`supabase/functions/classifyDocument/index.py` (Donut variant, function
`classify_document`).  Strings are modelled through their character lists;
the Python string primitives used by the code (`lower`, `strip`,
`replace`, `in`, slicing) are embedded as executable functions on
`List Char`.
-/

/-- Characters removed by Python `str.strip()` with no argument
(ASCII whitespace: space, tab, newline, carriage return, vertical tab,
form feed). -/
def pySpace (c : Char) : Bool :=
  c = ' ' || c = '\t' || c = '\n' || c = '\r' || c = '\x0b' || c = '\x0c'

/-- Python `str.strip()` on a character list: drop leading and trailing
whitespace. -/
def stripChars (l : List Char) : List Char :=
  ((l.dropWhile pySpace).reverse.dropWhile pySpace).reverse

/-- Python `str.strip()`. -/
def pyStrip (s : String) : String := ⟨stripChars s.data⟩

/-- Python `str.lower()` (the texts involved are ASCII, where
`Char.toLower` agrees with Python). -/
def pyLower (s : String) : String := ⟨s.data.map Char.toLower⟩

/-- Python `s.replace(pat, "")` on character lists: scan left to right,
removing each non-overlapping occurrence of `pat` and continuing after
it.  `fuel` bounds the recursion; `fuel = l.length` always suffices. -/
def removeAllFuel (pat : List Char) : Nat → List Char → List Char
  | _, [] => []
  | 0, l => l
  | fuel + 1, c :: rest =>
    if !pat.isEmpty && pat.isPrefixOf (c :: rest) then
      removeAllFuel pat fuel ((c :: rest).drop pat.length)
    else
      c :: removeAllFuel pat fuel rest

/-- Python `s.replace(pat, "")`. -/
def pyRemove (s pat : String) : String :=
  ⟨removeAllFuel pat.data s.data.length s.data⟩

/-- Python substring membership `pat in l` on character lists. -/
def occursIn : List Char → List Char → Bool
  | pat, [] => pat.isEmpty
  | pat, c :: rest => pat.isPrefixOf (c :: rest) || occursIn pat rest

/-- Python `needle in haystack` on strings. -/
def strIn (needle haystack : String) : Bool := occursIn needle.data haystack.data

/-- Python slicing `s[:n]`. -/
def pyTake (s : String) (n : Nat) : String := ⟨s.data.take n⟩

/-- The fixed keyword table `ACADEMIC_KEYWORDS` (32 entries, in source
order; identical in both variants). -/
def ACADEMIC_KEYWORDS : List String := [
  "grade", "marks", "certificate", "university", "college",
  "board", "percentage", "subject", "credits", "sgpa",
  "cgpa", "register", "usn", "student", "id card", "exam",
  "semester", "marksheet", "degree", "diploma", "transcript",
  "academic", "institute", "education", "result", "score",
  "pass", "fail", "division", "class", "roll", "admission"]

/-- The classification verdict record built by the classifier on its
success path (dict with keys `is_academic`, `score`, `text`, `reason`,
`matched_keywords`). -/
structure Verdict where
  is_academic : Bool
  score : Nat
  text : String
  reason : String
  matched_keywords : List String
deriving DecidableEq

/-- The keyword-matching loop: for each keyword in table order, test
`keyword.lower() in extracted_text`, accumulating the match count and the
list of matched keywords. -/
def keywordScan (ks : List String) (text : String) : Nat × List String :=
  ks.foldl
    (fun acc k => if strIn (pyLower k) text then (acc.1 + 1, acc.2 ++ [k]) else acc)
    (0, [])

/-- Fixed rejection message used when fewer than 2 keywords match. -/
def rejectionReason : String :=
  "Only academic documents (marks cards, certificates, ID cards) are allowed. This image does not appear to be an academic document."

/-- Reason string for the academic case: the match count and the listed
keywords joined by a comma and space. -/
def academicReason (matchTotal : Nat) (listed : List String) : String :=
  "Document classified as academic (matched " ++ toString matchTotal ++
    " keywords: " ++ String.intercalate ", " listed ++ ")"

/-- The keyword classifier core (lines 262-283 of `app.py`, lines 125-149
of `index.py`) with the keyword table as a parameter. -/
def classifyWith (ks : List String) (extracted_text : String) : Verdict :=
  let scan := keywordScan ks extracted_text
  let match_count := scan.1
  let matched_keywords := scan.2
  let is_academic := decide (2 ≤ match_count)
  { is_academic := is_academic
    score := match_count
    text := pyTake extracted_text 500
    reason :=
      if is_academic then academicReason match_count (matched_keywords.take 5)
      else rejectionReason
    matched_keywords := matched_keywords }

/-- The classifier with the fixed `ACADEMIC_KEYWORDS` table, exactly as
both source files run it. -/
def classifyText (extracted_text : String) : Verdict :=
  classifyWith ACADEMIC_KEYWORDS extracted_text

/-- The match count of the fixed-table classifier. -/
def matchCount (t : String) : Nat := (keywordScan ACADEMIC_KEYWORDS t).1

/-- The matched-keyword list of the fixed-table classifier. -/
def matchedKeywords (t : String) : List String :=
  (keywordScan ACADEMIC_KEYWORDS t).2

theorem keywordScan_go (t : String) (ks : List String) :
    ∀ (c : Nat) (m : List String),
      List.foldl
        (fun acc k => if strIn (pyLower k) t then (acc.1 + 1, acc.2 ++ [k]) else acc)
        (c, m) ks =
      (c + (ks.filter fun k => strIn (pyLower k) t).length,
        m ++ ks.filter fun k => strIn (pyLower k) t) := by
  induction ks with
  | nil => intro c m; simp
  | cons k ks ih =>
    intro c m
    rw [List.foldl_cons, List.filter_cons]
    by_cases h : strIn (pyLower k) t = true
    · simp only [h, if_true]
      rw [ih (c + 1) (m ++ [k])]
      refine Prod.ext ?_ ?_
      · simp only [List.length_cons]; omega
      · simp
    · simp only [h, if_false, Bool.false_eq_true]
      rw [ih c m]

theorem keywordScan_eq (ks : List String) (t : String) :
    keywordScan ks t =
      ((ks.filter fun k => strIn (pyLower k) t).length,
        ks.filter fun k => strIn (pyLower k) t) := by
  unfold keywordScan
  rw [keywordScan_go t ks 0 []]
  simp

/-- Result record of the request-level classifiers: the success path adds
a `matched_keywords` key, failure paths instead add an `error` key. -/
structure ApiResult where
  is_academic : Bool
  score : Nat
  text : String
  reason : String
  matched_keywords : Option (List String)
  error : Option String
deriving DecidableEq

/-- Error-shaped result returned by all failure branches: not academic,
score 0, empty text, a failure description and an `error` key. -/
def errResult (reason err : String) : ApiResult :=
  { is_academic := false, score := 0, text := "", reason := reason,
    matched_keywords := none, error := some err }

/-- The success-path result, wrapping the keyword classifier verdict. -/
def okResult (v : Verdict) : ApiResult :=
  { is_academic := v.is_academic, score := v.score, text := v.text,
    reason := v.reason, matched_keywords := some v.matched_keywords,
    error := none }

/-- Outcome of the HuggingFace extraction step of `classify_with_hf_api`
(the network interaction abstracted into its observable result):
either the raw model-generated text, or one of the failure branches the
source returns from (missing token, HTTP 503/410/403/404, other HTTP
status, request timeout, or a raised exception). -/
inductive HFOutcome where
  | ok (raw : String)
  | missingToken
  | modelLoading
  | deprecatedEndpoint (msg : String)
  | authFailed (errText : String)
  | modelNotFound (errText : String)
  | apiError (status : Nat) (errText : String)
  | timeout
  | exc (msg : String)
deriving DecidableEq

/-- Sentinel cleanup on the HF path (line 238 of `app.py`): each sentinel
is removed by `replace`, then the text is stripped.  The extracted text
was already lower-cased on receipt. -/
def hfClean (extracted_text : String) : String :=
  pyStrip (pyRemove (pyRemove (pyRemove extracted_text "<s_cord-v2>") "</s>") "<pad>")

/-- Lines 236-238 of `app.py`: extraction lower-cases the model output on
receipt; the sentinel cleanup runs only on truthy (non-empty) text. -/
def hfSanitize (raw : String) : String :=
  let lowered := pyLower raw
  if lowered ≠ "" then hfClean lowered else lowered

/-- The guard on line 241 of `app.py`:
`not extracted_text or len(extracted_text.strip()) < 5`. -/
def hfNoText (t : String) : Bool :=
  t == "" || decide ((pyStrip t).length < 5)

/-- The detail list of the no-text error message (lines 242-246 of
`app.py`), keyed on whether the InferenceClient was unavailable and
whether no API token was set. -/
def noTextDetails (clientNone noToken : Bool) : List String :=
  (if clientNone then ["InferenceClient not available"] else []) ++
    (if noToken then ["No API token set"] else [])

/-- The no-text error message assembled on lines 248-251 of `app.py`. -/
def noTextReason (clientNone noToken : Bool) : String :=
  let details := noTextDetails clientNone noToken
  let base := "Failed to extract text from image."
  let base :=
    if !details.isEmpty then
      base ++ " Issues: " ++ String.intercalate ", " details ++ "."
    else base
  base ++ " The model may not be available via Inference API, or the image format is not supported. Please check Railway logs for more details."

/-- The function `classify_with_hf_api` of `app.py` as a function of the
extraction outcome, with the two environment facts that shape the no-text
message (`_inference_client is None`, `HF_API_TOKEN` unset) as
parameters.  Each failure branch returns the literal error dict of the
source; the success path sanitizes, applies the no-text guard, and runs
the keyword classifier. -/
def classify_with_hf_api (clientNone noToken : Bool) : HFOutcome → ApiResult
  | .ok raw =>
    let t := hfSanitize raw
    if hfNoText t then
      errResult (noTextReason clientNone noToken) "No text extracted"
    else
      okResult (classifyText t)
  | .missingToken =>
    errResult "HuggingFace API token (HF_API_TOKEN) is required for router.huggingface.co. Please add your token to Railway environment variables." "Missing API token"
  | .modelLoading =>
    errResult "HuggingFace model is loading. Please wait 30-60 seconds and try again." "Model loading"
  | .deprecatedEndpoint msg =>
    errResult ("API endpoint deprecated (410): " ++ msg ++ ". The endpoint is no longer supported.") "Deprecated endpoint"
  | .authFailed errText =>
    errResult ("Authentication error (403): Your HuggingFace token may not have sufficient permissions. Please check your token at https://huggingface.co/settings/tokens and ensure it has \x27read\x27 access. Error: " ++ errText) "Authentication failed"
  | .modelNotFound errText =>
    errResult ("Model not found (404): The model \x27microsoft/trocr-base-printed\x27 may not be available via Inference API. Error: " ++ errText) "Model not found"
  | .apiError status errText =>
    errResult ("HuggingFace API error: " ++ toString status ++ " - " ++ errText) ("API error: " ++ toString status)
  | .timeout =>
    errResult "Request timeout: HuggingFace API did not respond within 60 seconds." "Timeout"
  | .exc msg =>
    errResult ("Classification failed: " ++ msg) msg

/-- Outcome of the Donut extraction step of `classify_document` in
`index.py`: the decoded sequence, or a raised exception. -/
inductive DonutOutcome where
  | ok (sequence : String)
  | exc (msg : String)
deriving DecidableEq

/-- Sentinel cleanup and lower-casing in the Donut variant (lines 119-123
of `index.py`): the replacements are case-sensitive and happen BEFORE
`lower()`.  The donut-base tokenizer constants `eos_token` and
`pad_token` are the literals `</s>` and `<pad>`. -/
def donutSanitize (sequence : String) : String :=
  pyLower (pyStrip (pyRemove (pyRemove (pyRemove (pyRemove sequence "</s>") "<pad>") "<s_cord-v2>") "</s>"))

/-- The function `classify_document` of `index.py` as a function of the
extraction outcome. -/
def classify_document : DonutOutcome → ApiResult
  | .ok sequence => okResult (classifyText (donutSanitize sequence))
  | .exc msg => errResult ("Classification failed: " ++ msg) msg

/-- Sanitization as the specification words it: lower-case the entire
string, then remove every occurrence of each configured sentinel
substring, then trim leading and trailing whitespace.  Stated for
comparison with the two code variants. -/
def spec_sanitize (s : String) : String :=
  pyStrip (pyRemove (pyRemove (pyRemove (pyLower s) "<s_cord-v2>") "</s>") "<pad>")

/-- A result is error-shaped when it is not academic, has score 0, empty
text, carries an `error` key and no `matched_keywords` key (so the
keyword classifier, which always produces a matched list, never ran). -/
def errShaped (r : ApiResult) : Prop :=
  r.is_academic = false ∧ r.score = 0 ∧ r.text = "" ∧
    r.error.isSome = true ∧ r.matched_keywords = none

theorem stripChars_length_le (l : List Char) : (stripChars l).length ≤ l.length := by
  unfold stripChars
  calc (((l.dropWhile pySpace).reverse.dropWhile pySpace).reverse).length
      = ((l.dropWhile pySpace).reverse.dropWhile pySpace).length :=
        List.length_reverse _
    _ ≤ (l.dropWhile pySpace).reverse.length :=
        (List.dropWhile_sublist _).length_le
    _ = (l.dropWhile pySpace).length := List.length_reverse _
    _ ≤ l.length := (List.dropWhile_sublist _).length_le

/-- C1: the verdict is academic exactly when the match count is at least
2; a text matching exactly 1 keyword is not academic, a text matching
exactly 2 keywords is academic. -/
theorem C1_isAcademic_iff_two_matches (t : String) :
    ((classifyText t).is_academic = true ↔ 2 ≤ matchCount t) ∧
    (matchCount t = 1 → (classifyText t).is_academic = false) ∧
    (matchCount t = 2 → (classifyText t).is_academic = true) := by
  have hbase : (classifyText t).is_academic = decide (2 ≤ matchCount t) := rfl
  refine ⟨?_, ?_, ?_⟩
  · rw [hbase]; simp
  · intro h1; rw [hbase, h1]; rfl
  · intro h2; rw [hbase, h2]; rfl

theorem C1_witness :
    (classifyText "grade").is_academic = false ∧
    (classifyText "grade marks").is_academic = true :=
  ⟨(C1_isAcademic_iff_two_matches "grade").2.1 (by decide),
   (C1_isAcademic_iff_two_matches "grade marks").2.2 (by decide)⟩

/-- C2: counterexample — on the spec example text the keyword `marks`
also matches (it is a substring of `marksheet`), so the classifier
produces 5 matched keywords, not the claimed 4, and the matched list is
not {university, marksheet, grade, percentage}. -/
theorem C2_counterexample :
    (classifyText "this is a university marksheet showing grade and percentage").score = 5 ∧
    (classifyText "this is a university marksheet showing grade and percentage").score ≠ 4 ∧
    (classifyText "this is a university marksheet showing grade and percentage").matched_keywords ≠
      ["university", "marksheet", "grade", "percentage"] := by
  decide

/-- C2 (amended): on the spec example text the classifier matches the
five keywords {grade, marks, university, percentage, marksheet} in
Keyword Set order, score = 5, isAcademic = true, and the reason mentions
5 matches and lists all five. -/
theorem C2_amended_verdict :
    classifyText "this is a university marksheet showing grade and percentage" =
      { is_academic := true
        score := 5
        text := "this is a university marksheet showing grade and percentage"
        reason := "Document classified as academic (matched 5 keywords: grade, marks, university, percentage, marksheet)"
        matched_keywords := ["grade", "marks", "university", "percentage", "marksheet"] } := by
  decide

/-- C3: counterexample — in the Donut variant sentinel removal is
case-sensitive and runs BEFORE lower-casing, so the upper-case sentinel
spelling `<S_CORD-V2>` is not removed: the sanitized output still
contains the sentinel, while the spec-worded pipeline (lower-case first,
then remove, then trim) removes it. -/
theorem C3_counterexample :
    donutSanitize "<S_CORD-V2>student id card" = "<s_cord-v2>student id card" ∧
    spec_sanitize "<S_CORD-V2>student id card" = "student id card" ∧
    donutSanitize "<S_CORD-V2>student id card" ≠
      spec_sanitize "<S_CORD-V2>student id card" := by
  decide

/-- C3 (amended): in the HuggingFace-API variant the claim holds — the
text is lower-cased on receipt, each configured sentinel is then removed
by a replace-all pass and the result is trimmed, which is exactly the
spec-worded pipeline, and empty input yields empty output.  (In the Donut
variant sentinel removal is case-sensitive and precedes lower-casing, so
differently-cased sentinels survive; see the counterexample.) -/
theorem C3_amended_hf_sanitize_eq_spec :
    (∀ raw, hfSanitize raw = spec_sanitize raw) ∧ hfSanitize "" = "" := by
  constructor
  · intro raw
    unfold hfSanitize spec_sanitize hfClean
    by_cases h : pyLower raw = ""
    · rw [h]; rfl
    · simp [h]
  · rfl

/-- C4: in every verdict the matched-keyword list has length equal to
the score, is a duplicate-free subsequence of the Keyword Set in Keyword
Set order, and is the full list of matched keywords (a keyword is in it
exactly when it occurs in the text). -/
theorem C4_matched_keywords_invariants (t : String) :
    (classifyText t).matched_keywords.length = (classifyText t).score ∧
    (classifyText t).matched_keywords.Sublist ACADEMIC_KEYWORDS ∧
    (classifyText t).matched_keywords.Nodup ∧
    ∀ k, k ∈ (classifyText t).matched_keywords ↔
      (k ∈ ACADEMIC_KEYWORDS ∧ strIn (pyLower k) t = true) := by
  have hm : (classifyText t).matched_keywords =
      ACADEMIC_KEYWORDS.filter fun k => strIn (pyLower k) t := by
    show (keywordScan ACADEMIC_KEYWORDS t).2 = _
    rw [keywordScan_eq]
  have hs : (classifyText t).score =
      (ACADEMIC_KEYWORDS.filter fun k => strIn (pyLower k) t).length := by
    show (keywordScan ACADEMIC_KEYWORDS t).1 = _
    rw [keywordScan_eq]
  refine ⟨?_, ?_, ?_, ?_⟩
  · rw [hm, hs]
  · rw [hm]; exact List.filter_sublist _
  · rw [hm]; exact List.Nodup.filter _ (by decide)
  · intro k; rw [hm]; exact List.mem_filter

theorem C4_witness :
    (classifyText "grade marks").matched_keywords.length =
      (classifyText "grade marks").score :=
  (C4_matched_keywords_invariants "grade marks").1

/-- C5: the reason of an academic verdict states the match count and
lists at most the first 5 matched keywords in Keyword Set order joined by
a comma and space, while the score still reports the full count; a
non-academic verdict carries the fixed rejection message. -/
theorem C5_reason_shape (t : String) :
    ((classifyText t).reason =
      if 2 ≤ matchCount t then
        academicReason (matchCount t) ((matchedKeywords t).take 5)
      else rejectionReason) ∧
    ((matchedKeywords t).take 5).length ≤ 5 ∧
    (classifyText t).score = (matchedKeywords t).length := by
  refine ⟨?_, List.length_take_le _ _, ?_⟩
  · show (if decide (2 ≤ matchCount t) then
        academicReason (matchCount t) ((matchedKeywords t).take 5)
      else rejectionReason) = _
    by_cases h : 2 ≤ matchCount t
    · simp [h]
    · simp [h]
  · show (keywordScan ACADEMIC_KEYWORDS t).1 =
      (keywordScan ACADEMIC_KEYWORDS t).2.length
    rw [keywordScan_eq]

/-- C6: the text field of the verdict is the sanitized text truncated to
its first 500 characters; any input shorter than 500 characters passes
through unchanged. -/
theorem C6_text_truncated (t : String) :
    (classifyText t).text = pyTake t 500 ∧
    ((classifyText t).text).length ≤ 500 ∧
    (t.length < 500 → (classifyText t).text = t) := by
  refine ⟨rfl, ?_, ?_⟩
  · show (t.data.take 500).length ≤ 500
    exact List.length_take_le _ _
  · intro h
    show pyTake t 500 = t
    unfold pyTake
    rw [List.take_of_length_le (le_of_lt h)]

theorem C6_witness :
    ("short text".length < 500) ∧ (classifyText "short text").text = "short text" :=
  ⟨by decide, (C6_text_truncated "short text").2.2 (by decide)⟩

/-- C7: empty sanitized text yields score 0, not academic, empty matched
list and the standard rejection reason — the same reason any other
non-academic text gets, with no special-casing of empty input. -/
theorem C7_empty_text_verdict :
    classifyText "" =
      { is_academic := false, score := 0, text := "", reason := rejectionReason,
        matched_keywords := [] } ∧
    (classifyText "").reason = (classifyText "a photo of a cat").reason := by
  exact ⟨by decide, by decide⟩

/-- C8: the classifier is a deterministic pure function — two calls with
identical text and keyword set produce identical verdicts. -/
theorem C8_deterministic (ks : List String) (t1 t2 : String) (h : t1 = t2) :
    classifyWith ks t1 = classifyWith ks t2 := by rw [h]

theorem C8_witness :
    classifyWith ACADEMIC_KEYWORDS "student exam" =
      classifyWith ACADEMIC_KEYWORDS "student exam" :=
  C8_deterministic ACADEMIC_KEYWORDS "student exam" "student exam" rfl

/-- C9: every upstream extraction failure (missing token, model loading,
deprecated endpoint, auth failure, model not found, other API error,
timeout, raised exception, or the no-text guard firing) yields an
error-shaped result — not academic, score 0, empty text, an error key —
and the keyword classifier never runs (no matched_keywords key); the
Donut variant's exception branch behaves identically. -/
theorem C9_failures_short_circuit :
    (∀ (clientNone noToken : Bool) (o : HFOutcome),
      (∀ raw, o ≠ HFOutcome.ok raw) →
      errShaped (classify_with_hf_api clientNone noToken o)) ∧
    (∀ (clientNone noToken : Bool) (raw : String),
      hfNoText (hfSanitize raw) = true →
      errShaped (classify_with_hf_api clientNone noToken (HFOutcome.ok raw))) ∧
    (∀ msg, errShaped (classify_document (DonutOutcome.exc msg))) := by
  refine ⟨?_, ?_, ?_⟩
  · intro cn tk o h
    cases o with
    | ok raw => exact absurd rfl (h raw)
    | missingToken => exact ⟨rfl, rfl, rfl, rfl, rfl⟩
    | modelLoading => exact ⟨rfl, rfl, rfl, rfl, rfl⟩
    | deprecatedEndpoint msg => exact ⟨rfl, rfl, rfl, rfl, rfl⟩
    | authFailed e => exact ⟨rfl, rfl, rfl, rfl, rfl⟩
    | modelNotFound e => exact ⟨rfl, rfl, rfl, rfl, rfl⟩
    | apiError st e => exact ⟨rfl, rfl, rfl, rfl, rfl⟩
    | timeout => exact ⟨rfl, rfl, rfl, rfl, rfl⟩
    | exc m => exact ⟨rfl, rfl, rfl, rfl, rfl⟩
  · intro cn tk raw h
    simp only [classify_with_hf_api, h, if_true]
    exact ⟨rfl, rfl, rfl, rfl, rfl⟩
  · intro msg; exact ⟨rfl, rfl, rfl, rfl, rfl⟩

theorem C9_witness :
    errShaped (classify_with_hf_api false false HFOutcome.timeout) ∧
    errShaped (classify_with_hf_api false false (HFOutcome.ok "hi")) ∧
    errShaped (classify_document (DonutOutcome.exc "boom")) :=
  ⟨C9_failures_short_circuit.1 false false HFOutcome.timeout (fun _ h => nomatch h),
   C9_failures_short_circuit.2.1 false false "hi" (by decide),
   C9_failures_short_circuit.2.2 "boom"⟩

/-- C10: in the HuggingFace-API variant, any sanitized text shorter than
5 characters (including a text equal to a single keyword such as `exam`)
takes the no-text branch: the result is the error dict with error key
`No text extracted`, it is error-shaped (not academic, score 0), and the
keyword matcher never runs on it. -/
theorem C10_short_text_is_extraction_failure
    (clientNone noToken : Bool) (raw : String)
    (h : (hfSanitize raw).length < 5) :
    classify_with_hf_api clientNone noToken (HFOutcome.ok raw) =
      errResult (noTextReason clientNone noToken) "No text extracted" ∧
    errShaped (classify_with_hf_api clientNone noToken (HFOutcome.ok raw)) := by
  have hle : (pyStrip (hfSanitize raw)).length ≤ (hfSanitize raw).length :=
    stripChars_length_le (hfSanitize raw).data
  have hlt : (pyStrip (hfSanitize raw)).length < 5 := lt_of_le_of_lt hle h
  have hguard : hfNoText (hfSanitize raw) = true := by
    unfold hfNoText
    simp [hlt]
  constructor
  · simp only [classify_with_hf_api, hguard, if_true]
  · simp only [classify_with_hf_api, hguard, if_true]
    exact ⟨rfl, rfl, rfl, rfl, rfl⟩

theorem C10_witness :
    ((hfSanitize "exam").length < 5) ∧
    classify_with_hf_api true false (HFOutcome.ok "exam") =
      errResult (noTextReason true false) "No text extracted" :=
  ⟨by decide, (C10_short_text_is_extraction_failure true false "exam" (by decide)).1⟩
